import Mathlib

/-!
# Verification of `pulumi-backend` stack-migration routines

Shallow embedding of the pure/string-level and command-issuing behaviour of
the `pulumi-backend` CLI (TypeScript/Deno).  External commands (`pulumi`,
`aws`) are modelled by an oracle `env : Nat → Bool` giving the success of the
i-th `exec` call of a function run; each model returns its result together
with the trace of issued command lines.  JS strings are embedded as Lean
`String`s, with single-character `split`, `includes`, `replaceAll` and the
regex tests implemented as executable functions on `List Char`.
-/

namespace PulumiBackend

/-! ## JS string primitives -/

/-- JS `String.prototype.split` with a one-character separator, on char
lists: `"a?b".split("?") = ["a","b"]`, `"".split("?") = [""]`. -/
def splitCharAux (sep : Char) : List Char → List Char → List (List Char)
  | [], acc => [acc.reverse]
  | c :: cs, acc =>
    if c = sep then acc.reverse :: splitCharAux sep cs []
    else splitCharAux sep cs (c :: acc)

/-- The list of `sep`-separated fields of `s`. -/
def splitChar (sep : Char) (s : List Char) : List (List Char) :=
  splitCharAux sep s []

/-- JS `String.prototype.includes`: substring containment on char lists. -/
def listContainsSub (pat : List Char) : List Char → Bool
  | [] => pat.isEmpty
  | c :: cs => pat.isPrefixOf (c :: cs) || listContainsSub pat cs

/-- JS `includes` on strings. -/
def jsIncludes (s pat : String) : Bool :=
  listContainsSub pat.data s.data

/-- JS `String.prototype.replaceAll` for one-character pattern/replacement. -/
def replaceAllChar (pat rep : Char) (s : String) : String :=
  ⟨s.data.map (fun c => if c = pat then rep else c)⟩

/-- JS truthiness-based `a || b` for an optional string (`undefined`, `null`
and `""` are falsy). -/
def jsOrOpt (a : Option String) (b : Option String) : Option String :=
  match a with
  | some s => if s = "" then b else some s
  | none => b

/-- JS `a || b` where the fallback is a plain string. -/
def jsOrStr (a : Option String) (b : String) : String :=
  match a with
  | some s => if s = "" then b else s
  | none => b

/-- Model of `@std/path` `join` for the POSIX relative-segment case used by the code
(`join(dir, name)` with `name` a plain relative file/dir name). -/
def pathJoin (a b : String) : String := a ++ "/" ++ b

/-! ## `src/pulumi/backend.ts` -/

/-- The record returned by `parseS3BackendUrl`. -/
structure S3BackendLocation where
  bucket : String
  region : String
  deriving Repr, DecidableEq

/-- Model of the DOM `URLSearchParams(query).get(key)` lookup used by
`parseS3BackendUrl`, for query strings without percent-escapes: fields are
split on `&`, empty fields are skipped, each field splits at its first `=`
into name and value (a field without `=` has value `""`), and `+` in a value
decodes to a space.  Returns the value of the first field named `key`. -/
def urlSearchParamsGet (query key : String) : Option String :=
  let fields := (splitChar '&' query.data).filter (fun f => ¬f.isEmpty)
  let lookup := fields.map (fun f =>
    match splitChar '=' f with
    | [] => (([] : List Char), ([] : List Char))
    | [k] => (k, ([] : List Char))
    | k :: vs => (k, List.intercalate ['=']
        (vs.map (fun (v : List Char) => v.map (fun c => if c = '+' then ' ' else c)))))
  match lookup.find? (fun kv => kv.1 = key.data) with
  | some kv => some ⟨kv.2⟩
  | none => none

/-- Embedding of `parseS3BackendUrl(backendUrl, fallbackRegion)`: requires the `s3://`
prefix, splits the remainder at `?` into bucket and query string, errors on
an empty bucket, and reads the region from the query string with
`fallbackRegion` as JS-falsy fallback. -/
def parseS3BackendUrl (backendUrl fallbackRegion : String) :
    Except String S3BackendLocation :=
  if ¬("s3://".data.isPrefixOf backendUrl.data) then
    .error "Backend URL must start with s3://"
  else
    let urlWithoutProtocol := backendUrl.data.drop 5
    let parts := splitChar '?' urlWithoutProtocol
    let bucket : String := ⟨parts.headD []⟩
    let queryString : Option String := (parts[1]?).map (fun q => (⟨q⟩ : String))
    if bucket = "" then .error "No bucket specified in S3 backend URL"
    else
      let region := jsOrStr (urlSearchParamsGet (jsOrStr queryString "") "region") fallbackRegion
      .ok ⟨bucket, region⟩

/-- The backend URL built by `loginToS3BackendWithBucket`:
`` `s3://${bucket}?region=${region}` ``. -/
def s3BackendUrlOf (bucket region : String) : String :=
  "s3://" ++ bucket ++ "?region=" ++ region

/-- Characters allowed in an S3 bucket name (AWS naming rules: lowercase
letters, digits, hyphens and dots). -/
def isBucketChar (c : Char) : Bool :=
  (('a' ≤ c ∧ c ≤ 'z') : Bool) || (('0' ≤ c ∧ c ≤ '9') : Bool) || c = '-' || c = '.'

/-- Characters appearing in an AWS region name (lowercase letters, digits,
hyphens). -/
def isRegionChar (c : Char) : Bool :=
  (('a' ≤ c ∧ c ≤ 'z') : Bool) || (('0' ≤ c ∧ c ≤ '9') : Bool) || c = '-'

/-- A syntactically valid, non-empty S3 bucket name. -/
def validBucketName (b : String) : Bool :=
  ¬b.data.isEmpty && b.data.all isBucketChar

/-- A syntactically valid, non-empty AWS region name. -/
def validRegionName (r : String) : Bool :=
  ¬r.data.isEmpty && r.data.all isRegionChar

/-! ## `verifyMigration` change detection (`src/pulumi/stack.ts`) -/

/-- JS `\s` for the ASCII whitespace characters (space, tab, newline,
vertical tab, form feed, carriage return); the summaries inspected by
`verifyMigration` contain only these. -/
def isJsWs (c : Char) : Bool :=
  c = ' ' || c = '\t' || c = '\n' || c = '\r' || c = Char.ofNat 11 || c = Char.ofNat 12

/-- ASCII digit test, JS `\d`. -/
def isAsciiDigit (c : Char) : Bool :=
  ('0' ≤ c : Bool) && (c ≤ '9' : Bool)

/-- Consume one-or-more characters of class `p` (the regex `p+`): requires
the first character to satisfy `p`, then drops the maximal run.  Greedy
matching is exact here because in the patterns below each `+`-class is
disjoint from the character that follows it. -/
def eatClass1 (p : Char → Bool) : List Char → Option (List Char)
  | [] => none
  | c :: cs => if p c then some (cs.dropWhile p) else none

/-- Test for the regex `lead\s+\d+\s+phrase` anchored at the start of the
list (the building block of the three `output.match(...)` tests in
`verifyMigration`). -/
def matchPatternAt (lead : Char) (phrase : List Char) : List Char → Bool
  | [] => false
  | c :: cs =>
    c = lead &&
      (match eatClass1 isJsWs cs with
       | none => false
       | some s1 =>
         match eatClass1 isAsciiDigit s1 with
         | none => false
         | some s2 =>
           match eatClass1 isJsWs s2 with
           | none => false
           | some s3 => phrase.isPrefixOf s3)

/-- Unanchored regex test, JS `output.match(/lead\s+\d+\s+phrase/) !== null`. -/
def jsRegexTest (lead : Char) (phrase : List Char) : List Char → Bool
  | [] => false
  | c :: cs => matchPatternAt lead phrase (c :: cs) || jsRegexTest lead phrase cs

/-- The `hasChanges` expression of `verifyMigration`:
`(output.includes("+ ") && output.match(/\+\s+\d+\s+to create/)) || ...`. -/
def previewHasChanges (output : String) : Bool :=
  (jsIncludes output "+ " && jsRegexTest '+' "to create".data output.data) ||
  (jsIncludes output "~ " && jsRegexTest '~' "to update".data output.data) ||
  (jsIncludes output "- " && jsRegexTest '-' "to delete".data output.data)

/-- The boolean returned by `verifyMigration`, as a function of the preview
command's exit success and captured output:
`if (!success || hasChanges) return false; ... return true`. -/
def verifyMigrationReport (success : Bool) (output : String) : Bool :=
  if !success || previewHasChanges output then false else true

/-- Numeric value of an ASCII digit run. -/
def digitsVal (ds : List Char) : Nat :=
  ds.foldl (fun a c => 10 * a + (c.toNat - '0'.toNat)) 0

/-- Spec-side matcher: the count reported by a `lead <n> phrase` summary
item anchored at the start of the list, when one matches there. -/
def matchCountAt (lead : Char) (phrase : List Char) : List Char → Option Nat
  | [] => none
  | c :: cs =>
    if c = lead then
      match eatClass1 isJsWs cs with
      | none => none
      | some s1 =>
        let ds := s1.takeWhile isAsciiDigit
        match eatClass1 isAsciiDigit s1 with
        | none => none
        | some s2 =>
          match eatClass1 isJsWs s2 with
          | none => none
          | some s3 => if phrase.isPrefixOf s3 then some (digitsVal ds) else none
    else none

/-- Spec-side: somewhere in the text a `lead <n> phrase` item reports a
count satisfying `p`. -/
def someCountWhere (lead : Char) (phrase : List Char) (p : Nat → Bool) :
    List Char → Bool
  | [] => false
  | c :: cs =>
    (match matchCountAt lead phrase (c :: cs) with
     | some n => p n
     | none => false) || someCountWhere lead phrase p cs

/-- Spec-side: the summary text reports a count of pending creates, updates
or deletes satisfying `p` (also requiring the corresponding
marker-plus-space substring, as the code does). -/
def reportsPendingCountWhere (output : String) (p : Nat → Bool) : Bool :=
  (jsIncludes output "+ " && someCountWhere '+' "to create".data p output.data) ||
  (jsIncludes output "~ " && someCountWhere '~' "to update".data p output.data) ||
  (jsIncludes output "- " && someCountWhere '-' "to delete".data p output.data)

/-! ## `src/pulumi/stack.ts`: export / import / create / delete -/

/-- JS truthiness of an optional string (`undefined` and `""` are falsy). -/
def jsTruthy (o : Option String) : Bool :=
  match o with
  | some s => s ≠ ""
  | none => false

/-- One `exec` invocation: the command line and the `cwd` option passed. -/
structure ExecCall where
  command : List String
  cwd : Option String
  deriving Repr, DecidableEq

/-- The temporary staging directory of `exportStackState`:
`join(Deno.cwd(), ".pulumi-migrate-temp")`. -/
def exportTempDir (cwd : String) : String :=
  pathJoin cwd ".pulumi-migrate-temp"

/-- The staging file path of `exportStackState`:
`join(tempDir, stack.replaceAll("/", "-") + "-state.json")`. -/
def exportStatePath (cwd stack : String) : String :=
  pathJoin (exportTempDir cwd) (replaceAllChar '/' '-' stack ++ "-state.json")

/-- The export command issued by `exportStackState`. -/
def exportStateCommand (stack statePath : String) : List String :=
  ["pulumi", "stack", "export", "--show-secrets", "--stack", stack, "--file", statePath]

/-- Run of `exportStackState(ctx, stack, workspacePath)`: returns the staged
state path (`null` on failure) and the issued exec call; `cwd` is the
invoking process's current directory (`Deno.cwd()`), passed explicitly. -/
def exportStackStateRun (env : Nat → Bool) (cwd stack workspacePath : String) :
    Option String × List ExecCall :=
  let statePath := exportStatePath cwd stack
  let call : ExecCall := ⟨exportStateCommand stack statePath, some workspacePath⟩
  if env 0 then (some statePath, [call]) else (none, [call])

/-- The stack argument of the import command of `importStackState`:
`const stackName = stack.includes("/") ? stack.split("/")[1] : stack;` then
`stackName || stack`. -/
def importStackArg (stack : String) : String :=
  let stackName : Option String :=
    if jsIncludes stack "/" then
      ((splitChar '/' stack.data)[1]?).map (fun l => (⟨l⟩ : String))
    else some stack
  jsOrStr stackName stack

/-- The import command issued by `importStackState`. -/
def importStateCommand (stack statePath : String) : List String :=
  ["pulumi", "stack", "import", "--stack", importStackArg stack, "--file", statePath]

/-- Spec-side helper: the segment of `stack` between its first and second
`/` (the unqualified stack name of an `org/stack` reference). -/
def segmentAfterFirstSlash (stack : String) : String :=
  ⟨((splitChar '/' stack.data)[1]?).getD []⟩

/-- The `SecretsConfig` interface of `src/types.ts`. -/
structure SecretsConfig where
  passphrase : Option String
  kmsAlias : Option String
  region : String
  deriving Repr, DecidableEq

/-- The `awskms://...` secrets-provider URL built by `createStackInS3` (and
`createStack` / `changeSecretProvider`):
`` `awskms://${kmsKeyId}?region=${secretsConfig.region}` `` with the alias
defaulted to `alias/pulumi-secrets` and prefixed with `alias/` if needed. -/
def kmsSecretsProviderUrl (cfg : SecretsConfig) : String :=
  let kmsAlias := jsOrStr cfg.kmsAlias "alias/pulumi-secrets"
  let kmsKeyId := if "alias/".data.isPrefixOf kmsAlias.data then kmsAlias else "alias/" ++ kmsAlias
  "awskms://" ++ kmsKeyId ++ "?region=" ++ cfg.region

/-- The `initCommand` of `createStackInS3` as built before the
organization push (lines 80-100 of `src/pulumi/stack.ts`): stack argument
`stackName || stack`, `--non-interactive`, and the secrets-provider flags
(none for `passphrase`, which only sets an environment variable, and none
for `default`). -/
def createStackInS3UnqualifiedInit (stack secretsProvider : String) (cfg : SecretsConfig) :
    List String :=
  let parts := splitChar '/' stack.data
  let stackName : Option String := (parts[1]?).map (fun l => (⟨l⟩ : String))
  let base := ["pulumi", "stack", "init", jsOrStr stackName stack, "--non-interactive"]
  if secretsProvider = "passphrase" then base
  else if secretsProvider = "awskms" then
    base ++ ["--secrets-provider", kmsSecretsProviderUrl cfg]
  else if secretsProvider ≠ "default" then
    base ++ ["--secrets-provider", secretsProvider]
  else base

/-- Whether `createStackInS3` treats `stack` as organization-qualified:
JS `if (orgName && stackName)` on the parts of `stack.split("/")`. -/
def s3StackOrgQualified (stack : String) : Bool :=
  let parts := splitChar '/' stack.data
  (⟨parts.headD []⟩ : String) ≠ "" && jsTruthy ((parts[1]?).map (fun l => (⟨l⟩ : String)))

/-- The first `stack init` command of `createStackInS3`: the unqualified
command with `--organization orgName` pushed when both destructured parts
of `stack.split("/")` are truthy. -/
def createStackInS3InitCommand (stack secretsProvider : String) (cfg : SecretsConfig) :
    List String :=
  if s3StackOrgQualified stack then
    createStackInS3UnqualifiedInit stack secretsProvider cfg ++
      ["--organization", ⟨(splitChar '/' stack.data).headD []⟩]
  else
    createStackInS3UnqualifiedInit stack secretsProvider cfg

/-- The fallback `stack init` command of `createStackInS3`, tried once when
the organization-qualified attempt failed: plain `stackName`, no
`--organization` flag, secrets flags only for `awskms` and custom
providers. -/
def createStackInS3FallbackCommand (stack secretsProvider : String) (cfg : SecretsConfig) :
    List String :=
  let parts := splitChar '/' stack.data
  let stackName : String := ⟨(parts[1]?).getD []⟩
  let base := ["pulumi", "stack", "init", stackName, "--non-interactive"]
  if secretsProvider = "awskms" then
    base ++ ["--secrets-provider", kmsSecretsProviderUrl cfg]
  else if secretsProvider ≠ "default" && secretsProvider ≠ "passphrase" then
    base ++ ["--secrets-provider", secretsProvider]
  else base

/-- Run of `createStackInS3`: first attempt with the qualified command; on
failure, exactly one retry without the organization flag when the stack was
organization-qualified, else immediate failure.  `env i` is the success of
the i-th exec call. -/
def createStackInS3Run (env : Nat → Bool) (stack secretsProvider : String)
    (cfg : SecretsConfig) : Bool × List (List String) :=
  let init := createStackInS3InitCommand stack secretsProvider cfg
  if env 0 then (true, [init])
  else if s3StackOrgQualified stack then
    let fb := createStackInS3FallbackCommand stack secretsProvider cfg
    (env 1, [init, fb])
  else (false, [init])

/-- The target-stack computation of `createStackInPulumiCloud`:
`orgFromStack`, `stackName`, `targetOrg = organization || orgFromStack`, and
the pushed init argument `targetOrg ? targetOrg + "/" + stackName : stack`. -/
def createStackInPulumiCloudStackArg (stack : String) (organization : Option String) :
    String :=
  let orgFromStack : Option String :=
    if jsIncludes stack "/" then some ⟨(splitChar '/' stack.data).headD []⟩ else none
  let stackName : String :=
    if jsIncludes stack "/" then ⟨((splitChar '/' stack.data)[1]?).getD []⟩ else stack
  let targetOrg := jsOrOpt organization orgFromStack
  match targetOrg with
  | some o => if o = "" then stack else o ++ "/" ++ stackName
  | none => stack

/-- The `stack init` command issued by `createStackInPulumiCloud`. -/
def createStackInPulumiCloudInitCommand (stack : String) (organization : Option String) :
    List String :=
  ["pulumi", "stack", "init", createStackInPulumiCloudStackArg stack organization,
   "--non-interactive"]

/-- The target-stack computation shared by `verifyMigration`:
`targetOrg ? targetOrg + "/" + stackName : stackName`. -/
def verifyMigrationTargetStack (stack : String) (organization : Option String) : String :=
  let orgFromStack : Option String :=
    if jsIncludes stack "/" then some ⟨(splitChar '/' stack.data).headD []⟩ else none
  let stackName : String :=
    if jsIncludes stack "/" then ⟨((splitChar '/' stack.data)[1]?).getD []⟩ else stack
  let targetOrg := jsOrOpt organization orgFromStack
  match targetOrg with
  | some o => if o = "" then stackName else o ++ "/" ++ stackName
  | none => stackName

/-- The preview command issued by `verifyMigration`. -/
def verifyMigrationCommand (stack : String) (organization : Option String) : List String :=
  ["pulumi", "preview", "--stack", verifyMigrationTargetStack stack organization, "--diff"]

/-- The stack-removal command of `deleteSourceStack`. -/
def stackRmCommand (stack : String) : List String :=
  ["pulumi", "stack", "rm", "--stack", stack, "--force", "--yes"]

/-- The initial re-login of `deleteSourceStack` (into the source backend):
bare `pulumi login` when `switchToCloud`, else `pulumi login switchBackUrl`. -/
def sourceLoginCommand (switchBackUrl : String) (switchToCloud : Bool) : List String :=
  if switchToCloud then ["pulumi", "login"] else ["pulumi", "login", switchBackUrl]

/-- The final re-login of `deleteSourceStack` (into the destination
backend): `pulumi login switchBackUrl` when `switchToCloud`, else bare
`pulumi login`. -/
def destLoginCommand (switchBackUrl : String) (switchToCloud : Bool) : List String :=
  if switchToCloud then ["pulumi", "login", switchBackUrl] else ["pulumi", "login"]

/-- Run of `deleteSourceStack(ctx, stack, switchBackUrl, workspacePath,
switchToCloud)`: logout, source login (result checked only in the
non-cloud direction), `stack rm` (checked), and on success logout plus the
final destination login (results ignored).  `env i` is the success of the
i-th exec call in program order. -/
def deleteSourceStackRun (env : Nat → Bool) (stack switchBackUrl : String)
    (switchToCloud : Bool) : Bool × List (List String) :=
  let logout := ["pulumi", "logout"]
  let srcLogin := sourceLoginCommand switchBackUrl switchToCloud
  if ¬switchToCloud ∧ ¬env 1 then (false, [logout, srcLogin])
  else if ¬env 2 then (false, [logout, srcLogin, stackRmCommand stack])
  else (true, [logout, srcLogin, stackRmCommand stack, logout,
               destLoginCommand switchBackUrl switchToCloud])

/-! ## `src/pulumi/secrets.ts` -/

/-- The target-stack computation of `changeSecretsProviderToDefault`
(identical in shape to the one in `verifyMigration`). -/
def changeSecretsToDefaultTargetStack (stack : String) (organization : Option String) :
    String :=
  let orgFromStack : Option String :=
    if jsIncludes stack "/" then some ⟨(splitChar '/' stack.data).headD []⟩ else none
  let stackName : String :=
    if jsIncludes stack "/" then ⟨((splitChar '/' stack.data)[1]?).getD []⟩ else stack
  let targetOrg := jsOrOpt organization orgFromStack
  match targetOrg with
  | some o => if o = "" then stackName else o ++ "/" ++ stackName
  | none => stackName

/-- The command issued by `changeSecretsProviderToDefault`. -/
def changeSecretsToDefaultCommand (stack : String) (organization : Option String) :
    List String :=
  ["pulumi", "stack", "change-secrets-provider", "default", "--stack",
   changeSecretsToDefaultTargetStack stack organization]

/-! ## `src/aws/s3.ts`: `createS3Bucket` -/

/-- The `create-bucket` command, with a `LocationConstraint` for every
region other than `us-east-1`. -/
def createBucketCommand (bucket region : String) : List String :=
  let base := ["aws", "s3api", "create-bucket", "--bucket", bucket, "--region", region]
  if region ≠ "us-east-1" then
    base ++ ["--create-bucket-configuration", "LocationConstraint=" ++ region]
  else base

/-- The `put-bucket-versioning` command. -/
def putBucketVersioningCommand (bucket region : String) : List String :=
  ["aws", "s3api", "put-bucket-versioning", "--bucket", bucket,
   "--versioning-configuration", "Status=Enabled", "--region", region]

/-- The `put-bucket-encryption` command (AES256 default encryption). -/
def putBucketEncryptionCommand (bucket region : String) : List String :=
  ["aws", "s3api", "put-bucket-encryption", "--bucket", bucket,
   "--server-side-encryption-configuration",
   "\x7b\"Rules\":[\x7b\"ApplyServerSideEncryptionByDefault\":\x7b\"SSEAlgorithm\":\"AES256\"\x7d,\"BucketKeyEnabled\":true\x7d]\x7d",
   "--region", region]

/-- The `put-bucket-lifecycle-configuration` command (expire noncurrent
versions after 90 days). -/
def putBucketLifecycleCommand (bucket region : String) : List String :=
  ["aws", "s3api", "put-bucket-lifecycle-configuration", "--bucket", bucket,
   "--lifecycle-configuration",
   "\x7b\"Rules\":[\x7b\"ID\":\"ExpireOldVersions\",\"Status\":\"Enabled\",\"NoncurrentVersionExpiration\":\x7b\"NoncurrentDays\":90\x7d\x7d]\x7d",
   "--region", region]

/-- Run of `createS3Bucket`: create the bucket (failure aborts with
`false`), then versioning, encryption and the lifecycle rule in order, each
returning overall `true` immediately when it fails.  `env i` is the success
of the i-th exec call. -/
def createS3BucketRun (env : Nat → Bool) (bucket region : String) :
    Bool × List (List String) :=
  let c1 := createBucketCommand bucket region
  if ¬env 0 then (false, [c1])
  else
    let c2 := putBucketVersioningCommand bucket region
    if ¬env 1 then (true, [c1, c2])
    else
      let c3 := putBucketEncryptionCommand bucket region
      if ¬env 2 then (true, [c1, c2, c3])
      else
        let c4 := putBucketLifecycleCommand bucket region
        (true, [c1, c2, c3, c4])

/-! ## Orchestrator migration phases

The portion of `cloudToS3Command` (`src/commands/cloud-to-s3.ts`) and
`s3ToCloudCommand` (`src/commands/s3-to-cloud.ts`) from the first
backend-or-export step onward, modelled at step granularity: each field of
the outcome records is the boolean result of the corresponding awaited
call (or of a user confirmation prompt), and the filesystem is the list of
existing staging paths.  `ensureDir` and the state-file write are the only
path creations; `cleanUpTempFiles(ctx, dirName)` removes
`join(Deno.cwd(), dirName)` recursively. -/

/-- Recursive removal of directory `dir`: drops `dir` itself and every path
below it. -/
def removeDirRecursive (fs : List String) (dir : String) : List String :=
  fs.filter (fun p => ¬(p = dir || (dir ++ "/").data.isPrefixOf p.data))

/-- Record a created path. -/
def addPath (fs : List String) (p : String) : List String :=
  if p ∈ fs then fs else fs ++ [p]

/-- How a workflow run terminated. -/
inductive RunOutcome
  | exited (code : Nat)
  | completed
  deriving Repr, DecidableEq

/-- Step outcomes of a `cloudToS3Command` run, in program order
(lines 238-301 of the command). -/
structure CloudToS3Outcomes where
  exportOk : Bool
  s3LoginOk : Bool
  createStackOk : Bool
  importOk : Bool
  skipVerify : Bool
  verifyOk : Bool
  proceedAfterFailedVerify : Bool
  deleteSource : Bool
  confirmDelete : Bool
  deleteOk : Bool
  deriving Repr, DecidableEq

/-- The migration phase of `cloudToS3Command`, from `changeSecretProvider`
(result ignored) and `exportStackState` to the final cleanup: each failed
required step exits with code 1; the verification-abort path and the
success path run `cleanUpTempFiles(ctx)` on `.pulumi-migrate-temp`. -/
def cloudToS3MigrationPhase (o : CloudToS3Outcomes) (cwd stack : String)
    (fs0 : List String) : List String × RunOutcome :=
  let fs1 := addPath fs0 (exportTempDir cwd)
  if ¬o.exportOk then (fs1, .exited 1)
  else
    let fs2 := addPath fs1 (exportStatePath cwd stack)
    if ¬o.s3LoginOk then (fs2, .exited 1)
    else if ¬o.createStackOk then (fs2, .exited 1)
    else if ¬o.importOk then (fs2, .exited 1)
    else if ¬o.skipVerify ∧ ¬o.verifyOk ∧ ¬o.proceedAfterFailedVerify then
      (removeDirRecursive fs2 (pathJoin cwd ".pulumi-migrate-temp"), .exited 1)
    else
      (removeDirRecursive fs2 (pathJoin cwd ".pulumi-migrate-temp"), .completed)

/-- Step outcomes of an `s3ToCloudCommand` run, in program order
(lines 144-241 of the command). -/
structure S3ToCloudOutcomes where
  s3LoginOk : Bool
  exportOk : Bool
  cloudLoginOk : Bool
  createStackOk : Bool
  importOk : Bool
  changeSecretsOk : Bool
  proceedAfterFailedSecrets : Bool
  skipVerify : Bool
  verifyOk : Bool
  proceedAfterFailedVerify : Bool
  deleteSource : Bool
  confirmDelete : Bool
  deleteOk : Bool
  deriving Repr, DecidableEq

/-- The migration phase of `s3ToCloudCommand`, from the source-backend
login and `exportStackState` to the final cleanup: each failed required
step exits with code 1; every `cleanUpTempFiles` call of this command
passes `.pulumi-cloud-migrate-temp` as the directory name. -/
def s3ToCloudMigrationPhase (o : S3ToCloudOutcomes) (cwd stack : String)
    (fs0 : List String) : List String × RunOutcome :=
  if ¬o.s3LoginOk then (fs0, .exited 1)
  else
    let fs1 := addPath fs0 (exportTempDir cwd)
    if ¬o.exportOk then (fs1, .exited 1)
    else
      let fs2 := addPath fs1 (exportStatePath cwd stack)
      if ¬o.cloudLoginOk then (fs2, .exited 1)
      else if ¬o.createStackOk then (fs2, .exited 1)
      else if ¬o.importOk then (fs2, .exited 1)
      else if ¬o.changeSecretsOk ∧ ¬o.proceedAfterFailedSecrets then
        (removeDirRecursive fs2 (pathJoin cwd ".pulumi-cloud-migrate-temp"), .exited 1)
      else if ¬o.skipVerify ∧ ¬o.verifyOk ∧ ¬o.proceedAfterFailedVerify then
        (removeDirRecursive fs2 (pathJoin cwd ".pulumi-cloud-migrate-temp"), .exited 1)
      else
        (removeDirRecursive fs2 (pathJoin cwd ".pulumi-cloud-migrate-temp"), .completed)

/-! ## Helper lemmas -/

theorem splitCharAux_of_not_mem (sep : Char) {l : List Char} (acc : List Char)
    (h : sep ∉ l) : splitCharAux sep l acc = [acc.reverse ++ l] := by
  induction l generalizing acc with
  | nil => simp [splitCharAux]
  | cons c cs ih =>
    have hc : ¬c = sep := by
      rintro rfl; exact h (List.mem_cons_self _ _)
    rw [splitCharAux, if_neg hc, ih _ (fun hm => h (List.mem_cons_of_mem _ hm))]
    simp

theorem splitChar_of_not_mem {sep : Char} {l : List Char} (h : sep ∉ l) :
    splitChar sep l = [l] := by
  rw [splitChar, splitCharAux_of_not_mem sep [] h]
  simp

theorem splitCharAux_append (sep : Char) {l₁ : List Char} (l₂ acc : List Char)
    (h : sep ∉ l₁) :
    splitCharAux sep (l₁ ++ sep :: l₂) acc = (acc.reverse ++ l₁) :: splitChar sep l₂ := by
  induction l₁ generalizing acc with
  | nil => simp [splitCharAux, splitChar]
  | cons c cs ih =>
    have hc : ¬c = sep := by
      rintro rfl; exact h (List.mem_cons_self _ _)
    rw [List.cons_append, splitCharAux, if_neg hc,
      ih _ (fun hm => h (List.mem_cons_of_mem _ hm))]
    simp

theorem splitChar_append {sep : Char} {l₁ : List Char} (l₂ : List Char) (h : sep ∉ l₁) :
    splitChar sep (l₁ ++ sep :: l₂) = l₁ :: splitChar sep l₂ := by
  rw [splitChar, splitCharAux_append sep l₂ [] h]
  simp

theorem splitChar_sep_cons (sep : Char) (l : List Char) :
    splitChar sep (sep :: l) = [] :: splitChar sep l := by
  rw [splitChar, splitCharAux, if_pos rfl]
  rfl

theorem isPrefixOf_append_self (l₁ l₂ : List Char) : l₁.isPrefixOf (l₁ ++ l₂) = true := by
  induction l₁ with
  | nil => simp [List.isPrefixOf]
  | cons c cs ih => simp [List.isPrefixOf, ih]

theorem not_mem_of_all {p : Char → Bool} {l : List Char} (h : l.all p = true) {c : Char}
    (hc : p c = false) : c ∉ l := by
  intro hm
  have := List.all_eq_true.mp h c hm
  rw [hc] at this
  exact Bool.false_ne_true this

theorem bucketChar_props {c : Char} (h : isBucketChar c = true) : ¬c = '?' := by
  rintro rfl
  exact absurd h (by decide)

theorem regionChar_props {c : Char} (h : isRegionChar c = true) :
    ¬c = '?' ∧ ¬c = '&' ∧ ¬c = '=' ∧ ¬c = '+' := by
  refine ⟨?_, ?_, ?_, ?_⟩ <;> (rintro rfl; exact absurd h (by decide))

theorem map_plus_decode_eq_self {l : List Char} (h : '+' ∉ l) :
    l.map (fun c => if c = '+' then ' ' else c) = l := by
  induction l with
  | nil => rfl
  | cons c cs ih =>
    have hc : ¬c = '+' := by rintro rfl; exact h (List.mem_cons_self _ _)
    simp only [List.map_cons, if_neg hc]
    rw [ih (fun hm => h (List.mem_cons_of_mem _ hm))]

theorem validBucketName_props {b : String} (h : validBucketName b = true) :
    ¬b.data = [] ∧ '?' ∉ b.data := by
  rw [validBucketName] at h
  simp only [Bool.and_eq_true] at h
  refine ⟨?_, not_mem_of_all h.2 (by decide)⟩
  intro hnil
  have := h.1
  rw [hnil] at this
  exact absurd this (by decide)

theorem validRegionName_props {r : String} (h : validRegionName r = true) :
    ¬r.data = [] ∧ '?' ∉ r.data ∧ '&' ∉ r.data ∧ '=' ∉ r.data ∧ '+' ∉ r.data := by
  rw [validRegionName] at h
  simp only [Bool.and_eq_true] at h
  refine ⟨?_, not_mem_of_all h.2 (by decide), not_mem_of_all h.2 (by decide),
    not_mem_of_all h.2 (by decide), not_mem_of_all h.2 (by decide)⟩
  intro hnil
  have := h.1
  rw [hnil] at this
  exact absurd this (by decide)

theorem string_ne_empty_of_data {b : String} (h : ¬b.data = []) : ¬b = "" := by
  intro hb
  rw [hb] at h
  exact h rfl

/-- Evaluation of the query-parameter lookup on the query string produced by
`s3BackendUrlOf`. -/
theorem urlSearchParamsGet_region {r : String} (hr : validRegionName r = true) :
    urlSearchParamsGet ⟨"region=".data ++ r.data⟩ "region" = some r := by
  obtain ⟨-, -, hamp, heq, hplus⟩ := validRegionName_props hr
  have hquery : (⟨"region=".data ++ r.data⟩ : String).data = "region=".data ++ r.data := rfl
  have hampq : '&' ∉ "region=".data ++ r.data := by
    simp only [List.mem_append]
    rintro (hm | hm)
    · exact absurd hm (by decide)
    · exact hamp hm
  have hsplit : splitChar '=' ("region=".data ++ r.data) = ["region".data, r.data] := by
    have hshape : "region=".data ++ r.data = "region".data ++ '=' :: r.data := rfl
    rw [hshape, splitChar_append _ (by decide), splitChar_of_not_mem heq]
  rw [urlSearchParamsGet, hquery, splitChar_of_not_mem hampq]
  simp only [List.filter, List.map]
  rw [hsplit]
  simp only [List.intercalate, List.map_cons, List.map_nil, map_plus_decode_eq_self hplus]
  simp [List.find?]

/-- C4: parsing the formatted `s3://bucket?region=R` location built from a
valid non-empty bucket name and region round-trips to exactly that bucket
and region; a string without the `s3://` prefix fails with the scheme
error; an empty bucket segment fails with the bucket error; and whenever
the query string omits the region — whether the query is absent entirely
or present without a `region` parameter, as in `s3://b?foo=bar` — the
returned region is the supplied fallback region. -/
theorem claim4_location_roundtrip :
    (∀ b r fb, validBucketName b = true → validRegionName r = true →
      parseS3BackendUrl (s3BackendUrlOf b r) fb = .ok ⟨b, r⟩) ∧
    (∀ url fb, "s3://".data.isPrefixOf url.data = false →
      parseS3BackendUrl url fb = .error "Backend URL must start with s3://") ∧
    (∀ q fb, parseS3BackendUrl ("s3://?" ++ q) fb =
      .error "No bucket specified in S3 backend URL") ∧
    (∀ fb, parseS3BackendUrl "s3://" fb = .error "No bucket specified in S3 backend URL") ∧
    (∀ b fb, validBucketName b = true →
      parseS3BackendUrl ("s3://" ++ b) fb = .ok ⟨b, fb⟩) ∧
    (∀ b q fb, validBucketName b = true → '?' ∉ q.data →
      urlSearchParamsGet q "region" = none →
      parseS3BackendUrl ("s3://" ++ b ++ "?" ++ q) fb = .ok ⟨b, fb⟩) := by
  refine ⟨?_, ?_, ?_, ?_, ?_, ?_⟩
  · intro b r fb hb hr
    obtain ⟨hbne, hbq⟩ := validBucketName_props hb
    obtain ⟨hrne, hrq, -, -, -⟩ := validRegionName_props hr
    have hdata : (s3BackendUrlOf b r).data =
        "s3://".data ++ (b.data ++ '?' :: ("region=".data ++ r.data)) := by
      simp only [s3BackendUrlOf, String.data_append, List.append_assoc]
      rfl
    have h1 : "s3://".data.isPrefixOf (s3BackendUrlOf b r).data = true := by
      rw [hdata]; exact isPrefixOf_append_self _ _
    have h2 : (s3BackendUrlOf b r).data.drop 5 = b.data ++ '?' :: ("region=".data ++ r.data) := by
      rw [hdata, show (5 : Nat) = ("s3://".data).length from rfl]
      exact List.drop_left _ _
    have hq2 : '?' ∉ "region=".data ++ r.data := by
      simp only [List.mem_append]
      rintro (hm | hm)
      · exact absurd hm (by decide)
      · exact hrq hm
    have h3 : splitChar '?' (b.data ++ '?' :: ("region=".data ++ r.data)) =
        [b.data, "region=".data ++ r.data] := by
      rw [splitChar_append _ hbq, splitChar_of_not_mem hq2]
    have hbne' : ¬(⟨b.data⟩ : String) = "" := string_ne_empty_of_data hbne
    have hqne : ¬(⟨"region=".data ++ r.data⟩ : String) = "" := by
      apply string_ne_empty_of_data
      intro hcontra
      have := congrArg List.length hcontra
      simp at this
    have hrne' : ¬r = "" := string_ne_empty_of_data hrne
    have h4 := urlSearchParamsGet_region hr
    simp only [parseS3BackendUrl]
    rw [if_neg (by rw [h1]; simp), h2, h3]
    simp only [List.headD, List.getElem?_cons_succ, List.getElem?_cons_zero, Option.map_some']
    rw [if_neg hbne']
    simp only [jsOrStr]
    rw [if_neg hqne, h4]
    simp [hrne']
  · intro url fb h
    rw [parseS3BackendUrl, if_pos (by rw [h]; simp)]
  · intro q fb
    have hdata : (("s3://?" ++ q) : String).data = "s3://".data ++ '?' :: q.data := by
      simp only [String.data_append]
      rfl
    have h1 : "s3://".data.isPrefixOf ("s3://?" ++ q).data = true := by
      rw [hdata]; exact isPrefixOf_append_self _ _
    have h2 : ("s3://?" ++ q).data.drop 5 = '?' :: q.data := by
      rw [hdata, show (5 : Nat) = ("s3://".data).length from rfl]
      exact List.drop_left _ _
    simp only [parseS3BackendUrl]
    rw [if_neg (by rw [h1]; simp), h2, splitChar_sep_cons]
    simp only [List.headD]
    simp
  · intro fb
    rfl
  · intro b fb hb
    obtain ⟨hbne, hbq⟩ := validBucketName_props hb
    have hdata : (("s3://" ++ b) : String).data = "s3://".data ++ b.data := by
      simp only [String.data_append]
    have h1 : "s3://".data.isPrefixOf ("s3://" ++ b).data = true := by
      rw [hdata]; exact isPrefixOf_append_self _ _
    have h2 : ("s3://" ++ b).data.drop 5 = b.data := by
      rw [hdata, show (5 : Nat) = ("s3://".data).length from rfl]
      exact List.drop_left _ _
    have h3 : splitChar '?' b.data = [b.data] := splitChar_of_not_mem hbq
    have hbne' : ¬(⟨b.data⟩ : String) = "" := string_ne_empty_of_data hbne
    simp only [parseS3BackendUrl]
    rw [if_neg (by rw [h1]; simp), h2, h3]
    simp only [List.headD, List.getElem?_cons_succ, List.getElem?_nil, Option.map_none']
    rw [if_neg hbne']
    simp [jsOrStr, urlSearchParamsGet, splitChar, splitCharAux, List.find?]
  · intro b q fb hb hq hreg
    obtain ⟨hbne, hbq⟩ := validBucketName_props hb
    have hdata : (("s3://" ++ b ++ "?" ++ q) : String).data =
        "s3://".data ++ (b.data ++ '?' :: q.data) := by
      simp only [String.data_append, List.append_assoc]
      rfl
    have h1 : "s3://".data.isPrefixOf ("s3://" ++ b ++ "?" ++ q).data = true := by
      rw [hdata]; exact isPrefixOf_append_self _ _
    have h2 : ("s3://" ++ b ++ "?" ++ q).data.drop 5 = b.data ++ '?' :: q.data := by
      rw [hdata, show (5 : Nat) = ("s3://".data).length from rfl]
      exact List.drop_left _ _
    have h3 : splitChar '?' (b.data ++ '?' :: q.data) = [b.data, q.data] := by
      rw [splitChar_append _ hbq, splitChar_of_not_mem hq]
    have hbne' : ¬(⟨b.data⟩ : String) = "" := string_ne_empty_of_data hbne
    have hqeta : (⟨q.data⟩ : String) = q := rfl
    have hjs : jsOrStr (some (⟨q.data⟩ : String)) "" = ⟨q.data⟩ := by
      by_cases hq0 : (⟨q.data⟩ : String) = "" <;> simp [jsOrStr, hq0]
    simp only [parseS3BackendUrl]
    rw [if_neg (by rw [h1]; simp), h2, h3]
    simp only [List.headD, List.getElem?_cons_succ, List.getElem?_cons_zero, Option.map_some']
    rw [if_neg hbne']
    rw [hjs, hqeta, hreg]
    rfl

theorem matchCountAt_isSome (lead : Char) (phrase : List Char) (l : List Char) :
    (matchCountAt lead phrase l).isSome = matchPatternAt lead phrase l := by
  cases l with
  | nil => rfl
  | cons c cs =>
    by_cases hc : c = lead
    · subst hc
      cases h1 : eatClass1 isJsWs cs with
      | none => simp [matchCountAt, matchPatternAt, h1]
      | some s1 =>
        cases h2 : eatClass1 isAsciiDigit s1 with
        | none => simp [matchCountAt, matchPatternAt, h1, h2]
        | some s2 =>
          cases h3 : eatClass1 isJsWs s2 with
          | none => simp [matchCountAt, matchPatternAt, h1, h2, h3]
          | some s3 =>
            by_cases hp : phrase.isPrefixOf s3 = true
            · simp [matchCountAt, matchPatternAt, h1, h2, h3, hp]
            · simp only [Bool.not_eq_true] at hp
              simp [matchCountAt, matchPatternAt, h1, h2, h3, hp]
    · simp [matchCountAt, matchPatternAt, if_neg hc, hc]

theorem someCountWhere_true_eq (lead : Char) (phrase : List Char) (l : List Char) :
    someCountWhere lead phrase (fun _ => true) l = jsRegexTest lead phrase l := by
  induction l with
  | nil => rfl
  | cons c cs ih =>
    simp only [someCountWhere, jsRegexTest]
    rw [ih]
    congr 1
    rw [← matchCountAt_isSome]
    cases matchCountAt lead phrase (c :: cs) <;> rfl

theorem previewHasChanges_eq_reports (output : String) :
    previewHasChanges output = reportsPendingCountWhere output (fun _ => true) := by
  simp only [previewHasChanges, reportsPendingCountWhere, someCountWhere_true_eq]

/-! ## Claim theorems -/

/-- C1: the cleanup guarantee fails on the code.  In an `s3ToCloudCommand`
run in which every step after export succeeds, the workflow completes but
the staging file still exists (the cleanup step removes
`.pulumi-cloud-migrate-temp` while the export staged under
`.pulumi-migrate-temp`); and in a `cloudToS3Command` run in which the
backend login after a successful export fails, the workflow exits without
any cleanup and the staging file still exists. -/
theorem claim1_staging_file_survives :
    (let r := s3ToCloudMigrationPhase
        ⟨true, true, true, true, true, true, true, false, true, true, false, false, true⟩
        "/work" "dev" []
     r.2 = RunOutcome.completed ∧ exportStatePath "/work" "dev" ∈ r.1) ∧
    (let r := cloudToS3MigrationPhase
        ⟨true, false, true, true, false, true, true, false, false, true⟩
        "/work" "dev" []
     r.2 = RunOutcome.exited 1 ∧ exportStatePath "/work" "dev" ∈ r.1) := by
  decide

/-- C2 counterexample: with the stack-removal command failing (and every
other command succeeding), `deleteSourceStack` returns `false` and the
final re-login to the destination backend is never issued, so the claim
that the destination re-login happens even on removal failure is false. -/
theorem claim2_counterexample :
    (deleteSourceStackRun (fun i => i != 2) "dev" "s3://state?region=eu-west-3" true).1
      = false ∧
    destLoginCommand "s3://state?region=eu-west-3" true ∉
      (deleteSourceStackRun (fun i => i != 2) "dev" "s3://state?region=eu-west-3" true).2 := by
  decide

/-- C2 (amended): the final re-login to the destination backend is issued
exactly when `deleteSourceStack` returns `true` (so a failed removal — or,
in the S3-to-Cloud direction, a failed source re-login — leaves the
session on the source backend); when issued, it is the last command of the
run. -/
theorem claim2_dest_relogin_iff_success (env : Nat → Bool)
    (stack switchBackUrl : String) (switchToCloud : Bool) :
    (destLoginCommand switchBackUrl switchToCloud ∈
        (deleteSourceStackRun env stack switchBackUrl switchToCloud).2
      ↔ (deleteSourceStackRun env stack switchBackUrl switchToCloud).1 = true) ∧
    ((deleteSourceStackRun env stack switchBackUrl switchToCloud).1 = true →
      (deleteSourceStackRun env stack switchBackUrl switchToCloud).2.getLast? =
        some (destLoginCommand switchBackUrl switchToCloud)) := by
  cases hstc : switchToCloud <;> cases h1 : env 1 <;> cases h2 : env 2 <;>
    simp [deleteSourceStackRun, destLoginCommand, sourceLoginCommand, stackRmCommand,
      h1, h2]

/-- C2 witness: a successful run issues the destination re-login last. -/
theorem claim2_witness :
    (deleteSourceStackRun (fun _ => true) "dev" "s3://state" true).2.getLast? =
      some (destLoginCommand "s3://state" true) :=
  (claim2_dest_relogin_iff_success (fun _ => true) "dev" "s3://state" true).2 (by decide)

/-- C3 counterexample: on the summary `"+ 0 to create"` with a zero exit
code, `verifyMigration` reports failure although the summary reports a
zero (not nonzero) count of pending creates and no pending updates or
deletes, so the claimed iff with "nonzero count" is false. -/
theorem claim3_counterexample :
    verifyMigrationReport true "+ 0 to create" = false ∧
    reportsPendingCountWhere "+ 0 to create" (fun n => n != 0) = false := by
  decide

/-- C3 (amended): `verifyMigration` reports failure iff the preview exits
nonzero or the summary reports a count — of any value, including zero — of
pending creates, updates or deletes; in particular `"+ 2 to create"` fails
and a zero-exit run whose summary has no such counts succeeds. -/
theorem claim3_verify_failure_iff :
    (∀ (success : Bool) (output : String),
      verifyMigrationReport success output = false ↔
        success = false ∨ reportsPendingCountWhere output (fun _ => true) = true) ∧
    verifyMigrationReport true "+ 2 to create" = false ∧
    verifyMigrationReport true "8 unchanged" = true := by
  refine ⟨?_, by decide, by decide⟩
  intro success output
  rw [verifyMigrationReport, ← previewHasChanges_eq_reports]
  cases success <;> cases h : previewHasChanges output <;> simp [h]

/-- C4 witness: the round trip, the malformed-input errors, and the
fallback region at concrete inputs. -/
theorem claim4_witness :
    parseS3BackendUrl (s3BackendUrlOf "my-bucket" "eu-west-3") "fb" =
      .ok ⟨"my-bucket", "eu-west-3"⟩ ∧
    parseS3BackendUrl "gs://bucket" "fb" = .error "Backend URL must start with s3://" ∧
    parseS3BackendUrl ("s3://?" ++ "region=x") "fb" =
      .error "No bucket specified in S3 backend URL" ∧
    parseS3BackendUrl "s3://" "fb" = .error "No bucket specified in S3 backend URL" ∧
    parseS3BackendUrl ("s3://" ++ "my-bucket") "fb" = .ok ⟨"my-bucket", "fb"⟩ ∧
    parseS3BackendUrl ("s3://" ++ "my-bucket" ++ "?" ++ "foo=bar") "fb" =
      .ok ⟨"my-bucket", "fb"⟩ :=
  ⟨claim4_location_roundtrip.1 "my-bucket" "eu-west-3" "fb" (by decide) (by decide),
   claim4_location_roundtrip.2.1 "gs://bucket" "fb" (by decide),
   claim4_location_roundtrip.2.2.1 "region=x" "fb",
   claim4_location_roundtrip.2.2.2.1 "fb",
   claim4_location_roundtrip.2.2.2.2.1 "my-bucket" "fb" (by decide),
   claim4_location_roundtrip.2.2.2.2.2 "my-bucket" "foo=bar" "fb" (by decide) (by decide)
     (by decide)⟩

/-- C5: in the secrets-provider reset, the verification preview and the
hosted-service stack creation, stack `org1/stackA` with explicit argument
`org2` resolves to `org2/stackA`; stack `stackA` with no embedded
organization and no argument stays unqualified; and a non-empty explicit
argument always overrides whatever organization the stack reference
embeds. -/
theorem claim5_org_resolution :
    (changeSecretsToDefaultTargetStack "org1/stackA" (some "org2") = "org2/stackA" ∧
     verifyMigrationTargetStack "org1/stackA" (some "org2") = "org2/stackA" ∧
     createStackInPulumiCloudStackArg "org1/stackA" (some "org2") = "org2/stackA") ∧
    (changeSecretsToDefaultTargetStack "stackA" none = "stackA" ∧
     verifyMigrationTargetStack "stackA" none = "stackA" ∧
     createStackInPulumiCloudStackArg "stackA" none = "stackA") ∧
    (∀ stack org : String, ¬org = "" →
      changeSecretsToDefaultTargetStack stack (some org) =
        org ++ "/" ++
          (if jsIncludes stack "/" = true then segmentAfterFirstSlash stack else stack) ∧
      verifyMigrationTargetStack stack (some org) =
        org ++ "/" ++
          (if jsIncludes stack "/" = true then segmentAfterFirstSlash stack else stack) ∧
      createStackInPulumiCloudStackArg stack (some org) =
        org ++ "/" ++
          (if jsIncludes stack "/" = true then segmentAfterFirstSlash stack else stack)) := by
  refine ⟨by decide, by decide, ?_⟩
  intro stack org h
  refine ⟨?_, ?_, ?_⟩ <;>
    simp [changeSecretsToDefaultTargetStack, verifyMigrationTargetStack,
      createStackInPulumiCloudStackArg, jsOrOpt, segmentAfterFirstSlash, h]

/-- C5 witness: the override at a concrete input via the general part. -/
theorem claim5_witness :
    changeSecretsToDefaultTargetStack "teamA/prod" (some "teamB") =
      "teamB" ++ "/" ++
        (if jsIncludes "teamA/prod" "/" = true then segmentAfterFirstSlash "teamA/prod"
         else "teamA/prod") :=
  (claim5_org_resolution.2.2 "teamA/prod" "teamB" (by decide)).1

/-- C6: for an organization-qualified stack, the first creation attempt of
`createStackInS3` carries `--organization`; when it fails, exactly one
retry without the organization qualifier is issued and the function
succeeds iff the retry does; for an unqualified stack a failed attempt is
not retried. -/
theorem claim6_s3_create_retry (env : Nat → Bool) (stack secretsProvider : String)
    (cfg : SecretsConfig) :
    (s3StackOrgQualified stack = true →
      createStackInS3InitCommand stack secretsProvider cfg =
        createStackInS3UnqualifiedInit stack secretsProvider cfg ++
          ["--organization", ⟨(splitChar '/' stack.data).headD []⟩] ∧
      (env 0 = true → createStackInS3Run env stack secretsProvider cfg =
        (true, [createStackInS3InitCommand stack secretsProvider cfg])) ∧
      (env 0 = false → createStackInS3Run env stack secretsProvider cfg =
        (env 1, [createStackInS3InitCommand stack secretsProvider cfg,
                 createStackInS3FallbackCommand stack secretsProvider cfg]))) ∧
    (s3StackOrgQualified stack = false →
      createStackInS3InitCommand stack secretsProvider cfg =
        createStackInS3UnqualifiedInit stack secretsProvider cfg ∧
      (env 0 = true → createStackInS3Run env stack secretsProvider cfg =
        (true, [createStackInS3InitCommand stack secretsProvider cfg])) ∧
      (env 0 = false → createStackInS3Run env stack secretsProvider cfg =
        (false, [createStackInS3InitCommand stack secretsProvider cfg]))) := by
  constructor <;> intro hq
  · refine ⟨by simp [createStackInS3InitCommand, hq], ?_, ?_⟩ <;> intro he <;>
      simp [createStackInS3Run, he, hq]
  · refine ⟨by simp [createStackInS3InitCommand, hq], ?_, ?_⟩ <;> intro he <;>
      simp [createStackInS3Run, he, hq]

/-- C6 witness: a qualified stack whose first attempt fails retries once
without the qualifier and succeeds with the retry. -/
theorem claim6_witness :
    createStackInS3Run (fun i => i != 0) "org/app" "default" ⟨none, none, "eu-west-3"⟩ =
      ((fun i => i != 0 : Nat → Bool) 1,
       [createStackInS3InitCommand "org/app" "default" ⟨none, none, "eu-west-3"⟩,
        createStackInS3FallbackCommand "org/app" "default" ⟨none, none, "eu-west-3"⟩]) :=
  ((claim6_s3_create_retry (fun i => i != 0) "org/app" "default"
    ⟨none, none, "eu-west-3"⟩).1 (by decide)).2.2 (by decide)

/-- C7 counterexample: when bucket creation succeeds and enabling
versioning fails, `createS3Bucket` returns `true` without ever attempting
the encryption or lifecycle steps, so the claim that all three
configuration steps are attempted is false. -/
theorem claim7_counterexample :
    (createS3BucketRun (fun i => i == 0) "state-bucket" "eu-west-3").1 = true ∧
    putBucketEncryptionCommand "state-bucket" "eu-west-3" ∉
      (createS3BucketRun (fun i => i == 0) "state-bucket" "eu-west-3").2 ∧
    putBucketLifecycleCommand "state-bucket" "eu-west-3" ∉
      (createS3BucketRun (fun i => i == 0) "state-bucket" "eu-west-3").2 := by
  decide

/-- C7 (amended): `createS3Bucket` returns `false` exactly when the
initial bucket creation fails; when creation succeeds it attempts the
best-effort configuration steps in order — versioning, then encryption,
then the 90-day lifecycle rule — stopping after the first configuration
step that fails, and returns `true` regardless of configuration-step
failures. -/
theorem claim7_create_bucket (env : Nat → Bool) (bucket region : String) :
    ((createS3BucketRun env bucket region).1 = env 0) ∧
    (env 0 = false →
      (createS3BucketRun env bucket region).2 = [createBucketCommand bucket region]) ∧
    (env 0 = true → env 1 = false →
      (createS3BucketRun env bucket region).2 =
        [createBucketCommand bucket region, putBucketVersioningCommand bucket region]) ∧
    (env 0 = true → env 1 = true → env 2 = false →
      (createS3BucketRun env bucket region).2 =
        [createBucketCommand bucket region, putBucketVersioningCommand bucket region,
         putBucketEncryptionCommand bucket region]) ∧
    (env 0 = true → env 1 = true → env 2 = true →
      (createS3BucketRun env bucket region).2 =
        [createBucketCommand bucket region, putBucketVersioningCommand bucket region,
         putBucketEncryptionCommand bucket region,
         putBucketLifecycleCommand bucket region]) := by
  cases h0 : env 0 <;> cases h1 : env 1 <;> cases h2 : env 2 <;>
    simp [createS3BucketRun, h0, h1, h2]

/-- C7 witness: a run with a failing encryption step still returns `true`
and stops before the lifecycle step. -/
theorem claim7_witness :
    (createS3BucketRun (fun i => i < 2) "state-bucket" "eu-west-3").1 = true ∧
    (createS3BucketRun (fun i => i < 2) "state-bucket" "eu-west-3").2 =
      [createBucketCommand "state-bucket" "eu-west-3",
       putBucketVersioningCommand "state-bucket" "eu-west-3",
       putBucketEncryptionCommand "state-bucket" "eu-west-3"] := by
  constructor
  · exact ((claim7_create_bucket (fun i => i < 2) "state-bucket" "eu-west-3").1).trans
      (by decide)
  · exact (claim7_create_bucket (fun i => i < 2) "state-bucket" "eu-west-3").2.2.2.1
      (by decide) (by decide) (by decide)

/-- C8 counterexample: for the stack reference `"org/"` (which contains a
`/`), the segment after the first `/` is empty and the import command's
stack argument falls back to the full reference `"org/"`, organization
qualifier included, so the universally-stated claim is false. -/
theorem claim8_counterexample :
    jsIncludes "org/" "/" = true ∧
    segmentAfterFirstSlash "org/" = "" ∧
    importStackArg "org/" = "org/" ∧
    ¬importStackArg "org/" = segmentAfterFirstSlash "org/" := by
  decide

/-- C8 (amended): for every stack reference containing `/`, when the
segment between the first and second `/` is non-empty the import command's
stack argument is exactly that segment (the organization qualifier is
dropped); when that segment is empty the full reference is passed
instead. -/
theorem claim8_import_unqualified (stack : String) (h : jsIncludes stack "/" = true) :
    (¬segmentAfterFirstSlash stack = "" →
      importStackArg stack = segmentAfterFirstSlash stack) ∧
    (segmentAfterFirstSlash stack = "" → importStackArg stack = stack) := by
  have harg : importStackArg stack =
      jsOrStr (((splitChar '/' stack.data)[1]?).map (fun l => (⟨l⟩ : String))) stack := by
    simp only [importStackArg, if_pos h]
  cases hopt : (splitChar '/' stack.data)[1]? with
  | none =>
    have hseg : segmentAfterFirstSlash stack = "" := by
      simp [segmentAfterFirstSlash, hopt]
    constructor
    · intro hne
      exact absurd hseg hne
    · intro _
      rw [harg, hopt]
      rfl
  | some l =>
    have hseg : segmentAfterFirstSlash stack = ⟨l⟩ := by
      simp [segmentAfterFirstSlash, hopt]
    constructor
    · intro hne
      rw [harg, hopt, hseg]
      rw [hseg] at hne
      simp only [jsOrStr, Option.map_some']
      rw [if_neg hne]
    · intro he
      rw [harg, hopt]
      rw [hseg] at he
      simp only [jsOrStr, Option.map_some']
      rw [if_pos he]

/-- C8 witness: for `org/app` the import stack argument is the unqualified
segment. -/
theorem claim8_witness :
    importStackArg "org/app" = segmentAfterFirstSlash "org/app" :=
  (claim8_import_unqualified "org/app" (by decide)).1 (by decide)

/-- C9: `exportStackState` stages the exported state at
`<cwd>/.pulumi-migrate-temp/<stack with / replaced by ->-state.json`; the
path does not depend on the workspace argument, and the references
`org/dev` and `org-dev` collide on the same staging path. -/
theorem claim9_export_staging_path (env : Nat → Bool)
    (cwd stack workspacePath : String) :
    ((exportStackStateRun env cwd stack workspacePath).1 =
      if env 0 = true then
        some (cwd ++ "/.pulumi-migrate-temp/" ++ replaceAllChar '/' '-' stack ++
          "-state.json")
      else none) ∧
    (∀ w₂ : String, (exportStackStateRun env cwd stack w₂).1 =
      (exportStackStateRun env cwd stack workspacePath).1) ∧
    exportStatePath cwd "org/dev" = exportStatePath cwd "org-dev" := by
  have hpath : ∀ x : String,
      pathJoin (pathJoin cwd ".pulumi-migrate-temp") x = cwd ++ "/.pulumi-migrate-temp/" ++ x := by
    intro x
    apply String.ext
    simp [pathJoin, String.data_append]
  refine ⟨?_, ?_, ?_⟩
  · cases h0 : env 0 <;>
      simp [exportStackStateRun, exportStatePath, exportTempDir, h0, hpath]
    all_goals
      apply String.ext
      simp [String.data_append]
  · intro w₂
    cases h0 : env 0 <;> simp [exportStackStateRun, h0]
  · simp only [exportStatePath, exportTempDir]
    rw [show replaceAllChar '/' '-' "org/dev" = "org-dev" from by decide,
      show replaceAllChar '/' '-' "org-dev" = "org-dev" from by decide]

/-- C10: every stack-removal command issued by `deleteSourceStack` carries
both `--force` and `--yes`, and whenever the removal step is reached (the
cloud direction, or a successful source re-login) the removal command is
issued. -/
theorem claim10_rm_force_yes (env : Nat → Bool) (stack switchBackUrl : String)
    (switchToCloud : Bool) :
    (∀ c ∈ (deleteSourceStackRun env stack switchBackUrl switchToCloud).2,
      c.take 3 = ["pulumi", "stack", "rm"] → "--force" ∈ c ∧ "--yes" ∈ c) ∧
    ((switchToCloud = true ∨ env 1 = true) →
      stackRmCommand stack ∈ (deleteSourceStackRun env stack switchBackUrl switchToCloud).2) := by
  cases hstc : switchToCloud <;> cases h1 : env 1 <;> cases h2 : env 2 <;>
    simp [deleteSourceStackRun, destLoginCommand, sourceLoginCommand, stackRmCommand,
      h1, h2]

/-- C10 witness: at a concrete run reaching the removal step, the issued
removal command carries both flags. -/
theorem claim10_witness :
    "--force" ∈ stackRmCommand "dev" ∧ "--yes" ∈ stackRmCommand "dev" ∧
    stackRmCommand "dev" ∈ (deleteSourceStackRun (fun _ => true) "dev" "s3://state" true).2 := by
  refine ⟨?_, ?_, ?_⟩
  · exact ((claim10_rm_force_yes (fun _ => true) "dev" "s3://state" true).1
      (stackRmCommand "dev") (by decide) (by decide)).1
  · exact ((claim10_rm_force_yes (fun _ => true) "dev" "s3://state" true).1
      (stackRmCommand "dev") (by decide) (by decide)).2
  · exact (claim10_rm_force_yes (fun _ => true) "dev" "s3://state" true).2 (Or.inl rfl)

end PulumiBackend
